import Mathlib

/-!
Shallow embedding of the MEXCTraderBot paper-trading engine.

The definitions below translate `src/trading_bot.py` and the state-mutating
routes of `src/app.py` into Lean.  Python floats are modelled as exact
rationals, Python dictionary keys that can be absent are modelled as
`Option`, and a Python exception raised before any mutation of the global
`state` dictionary is modelled by an outcome constructor that carries the
state as it was at the raise point.
-/

/-- Trade side, the `side` string field of a position: the Python code only
ever stores the strings `long` and `short`. -/
inductive Side where
  | long
  | short
deriving DecidableEq

/-- An open position, the dictionary built in `TradingBot.open_position`
(src/trading_bot.py lines 213 to 221). -/
structure Position where
  entry_time : String
  side : Side
  entry_price : ℚ
  usdt_amount : ℚ
  coin_amount : ℚ
  leverage : ℚ
  trade_number : ℕ
deriving DecidableEq

/-- A closed-trade history entry, the dictionary built in
`TradingBot.close_position` (src/trading_bot.py lines 264 to 275). -/
structure TradeRecord where
  trade_number : ℕ
  time : String
  side : Side
  entry_price : ℚ
  entry_time : String
  exit_price : ℚ
  pnl_usdt : ℚ
  pnl_percent : ℚ
  reason : String
  balance_after : ℚ
deriving DecidableEq

/-- The global `state` dictionary of src/trading_bot.py.  The
`telegram_trade_counter` key can be removed by `api_reset_balance`
(src/app.py line 160), so it is modelled as an `Option ℕ` with `none`
meaning the key is absent from the dictionary. -/
structure AccountState where
  balance : ℚ
  available : ℚ
  in_position : Bool
  position : Option Position
  trades : List TradeRecord
  telegram_trade_counter : Option ℕ
  skip_next_signal : Bool
deriving DecidableEq

/-- `START_BANK = 100.0`, src/trading_bot.py line 16. -/
def START_BANK : ℚ := 100

/-- `self.max_trade_size = START_BANK * 0.2`, src/trading_bot.py line 74. -/
def max_trade_size : ℚ := START_BANK * (2 / 10)

/-- `self.max_leverage = 5`, src/trading_bot.py line 75. -/
def max_leverage : ℚ := 5

/-- The module-level default `state` of src/trading_bot.py lines 26 to 34. -/
def defaultState : AccountState :=
  { balance := START_BANK
    available := START_BANK
    in_position := false
    position := none
    trades := []
    telegram_trade_counter := some 0
    skip_next_signal := false }

/-- `TradingBot.get_trade_size` (src/trading_bot.py lines 175 to 199).
The `side` argument is accepted and ignored, exactly as in the source.
Fee rate `0.0004` is the exact rational `4 / 10000`. -/
def get_trade_size (s : AccountState) (current_price : ℚ) (side : Side) : ℚ × ℚ :=
  let risk_percent : ℚ := 1 / 100
  let usdt_amount := s.available * risk_percent * max_leverage
  let usdt_amount := if usdt_amount > max_trade_size then max_trade_size else usdt_amount
  let usdt_amount := if usdt_amount > s.available then s.available else usdt_amount
  if usdt_amount ≤ 0 then (0, 0)
  else
    let coin_amount := usdt_amount / current_price
    let fee := usdt_amount * (4 / 10000)
    (usdt_amount - fee, coin_amount)

/-- Result of `TradingBot.open_position`.  `rejected` is the early
`return False`; `raised` is a `KeyError` escaping the function (the carried
state is the global state at the raise point); `opened` is the successful
`return True` with the mutated state. -/
inductive OpenOutcome where
  | rejected (s : AccountState)
  | raised (s : AccountState)
  | opened (s : AccountState)
deriving DecidableEq

/-- The `new_position` dictionary of `open_position`
(src/trading_bot.py lines 213 to 221). -/
def openedPosition (side : Side) (price usdt_amount coin_amount : ℚ)
    (trade_number : ℕ) (now : String) : Position :=
  { entry_time := now
    side := side
    entry_price := price
    usdt_amount := usdt_amount
    coin_amount := coin_amount
    leverage := max_leverage
    trade_number := trade_number }

/-- The state mutations of a successful `open_position`
(src/trading_bot.py lines 210, 224 to 226): counter incremented,
`in_position` set, position stored, `available` reduced by the margin. -/
def openedState (s : AccountState) (side : Side) (usdt_amount coin_amount price : ℚ)
    (n : ℕ) (now : String) : AccountState :=
  { s with
    telegram_trade_counter := some (n + 1)
    in_position := true
    position := some (openedPosition side price usdt_amount coin_amount (n + 1) now)
    available := s.available - usdt_amount }

/-- `TradingBot.open_position` (src/trading_bot.py lines 201 to 234).
The statement `state[telegram_trade_counter] += 1` reads the key before
writing it, so a missing key raises `KeyError` before any mutation. -/
def open_position (s : AccountState) (side : Side) (usdt_amount coin_amount price : ℚ)
    (now : String) : OpenOutcome :=
  if s.in_position then .rejected s
  else
    match s.telegram_trade_counter with
    | none => .raised s
    | some n => .opened (openedState s side usdt_amount coin_amount price n now)

/-- Result of `TradingBot.close_position`.  `noPosition` is the early
`return None`; `raised` is a `TypeError` escaping the function before any
mutation (subscripting a `None` position, or arithmetic with a `None`
price); `closed` carries the mutated state and the returned trade record. -/
inductive CloseOutcome where
  | noPosition (s : AccountState)
  | raised (s : AccountState)
  | closed (s : AccountState) (rec : TradeRecord)
deriving DecidableEq

/-- The leveraged `pnl_usdt` of `close_position`
(src/trading_bot.py lines 252 to 255). -/
def closePnl (pos : Position) (current_price : ℚ) : ℚ :=
  match pos.side with
  | .long => pos.coin_amount * (current_price - pos.entry_price) * pos.leverage
  | .short => pos.coin_amount * (pos.entry_price - current_price) * pos.leverage

/-- The exit `fee` of `close_position` (src/trading_bot.py line 258). -/
def closeFee (pos : Position) (current_price : ℚ) : ℚ :=
  (pos.coin_amount * current_price) * (4 / 10000)

/-- The `trade_record` dictionary of `close_position`
(src/trading_bot.py lines 264 to 275). -/
def closeTradeRecord (s : AccountState) (pos : Position) (current_price : ℚ)
    (close_reason now : String) : TradeRecord :=
  { trade_number := pos.trade_number
    time := now
    side := pos.side
    entry_price := pos.entry_price
    entry_time := pos.entry_time
    exit_price := current_price
    pnl_usdt := closePnl pos current_price - closeFee pos current_price
    pnl_percent :=
      if pos.usdt_amount > 0 then
        (closePnl pos current_price - closeFee pos current_price) / pos.usdt_amount * 100
      else 0
    reason := close_reason
    balance_after := s.balance + (closePnl pos current_price - closeFee pos current_price) }

/-- The state mutations of a successful `close_position`
(src/trading_bot.py lines 277 to 283): record appended, balance updated by
the net PnL, `available` set to the new balance, position cleared. -/
def closedState (s : AccountState) (pos : Position) (current_price : ℚ)
    (close_reason now : String) : AccountState :=
  { s with
    trades := s.trades ++ [closeTradeRecord s pos current_price close_reason now]
    balance := s.balance + (closePnl pos current_price - closeFee pos current_price)
    available := s.balance + (closePnl pos current_price - closeFee pos current_price)
    in_position := false
    position := none }

/-- `TradingBot.close_position` (src/trading_bot.py lines 236 to 291).
`priceOpt` is the value returned by `get_current_price`, which is `None`
when the ticker fetch fails.  The position fields are read first (lines 242
to 247), then the price is fetched (line 249); both failure points raise
before any mutation of the global state. -/
def close_position (s : AccountState) (priceOpt : Option ℚ)
    (close_reason now : String) : CloseOutcome :=
  if s.in_position = false then .noPosition s
  else
    match s.position with
    | none => .raised s
    | some pos =>
      match priceOpt with
      | none => .raised s
      | some current_price =>
        .closed (closedState s pos current_price close_reason now)
          (closeTradeRecord s pos current_price close_reason now)

/-- The state after an `open_position` call returns or its exception is
caught by the caller: in every non-`opened` outcome the global state is
untouched. -/
def applyOpen (s : AccountState) (side : Side) (usdt_amount coin_amount price : ℚ)
    (now : String) : AccountState :=
  match open_position s side usdt_amount coin_amount price now with
  | .rejected t => t
  | .raised t => t
  | .opened t => t

/-- The state after a `close_position` call returns or its exception is
caught by the caller: in every non-`closed` outcome the global state is
untouched. -/
def applyClose (s : AccountState) (priceOpt : Option ℚ)
    (close_reason now : String) : AccountState :=
  match close_position s priceOpt close_reason now with
  | .noPosition t => t
  | .raised t => t
  | .closed t _ => t

/-- `api_reset_balance` (src/app.py lines 153 to 166): balance and
available set to `100.0`, position and flag cleared, history emptied, the
`telegram_trade_counter` key popped from the dictionary.
`skip_next_signal` is not touched by the route. -/
def api_reset_balance (s : AccountState) : AccountState :=
  { s with
    balance := 100
    available := 100
    in_position := false
    position := none
    trades := []
    telegram_trade_counter := none }

/-- `api_close_position` (src/app.py lines 140 to 150): returns an error
without calling the bot when no position is open, otherwise calls
`close_position` with reason `manual`. -/
def api_close_position (s : AccountState) (priceOpt : Option ℚ)
    (now : String) : AccountState :=
  if s.in_position = false then s
  else applyClose s priceOpt "manual" now

/-- The per-tick inputs of one iteration of `TradingBot.strategy_loop`
(src/trading_bot.py lines 295 to 371): the three SAR directions, the price
fetched at the top of the tick, the price fetched again inside
`close_position`, and the wall-clock timestamp. -/
structure TickInput where
  dir_15m : Option Side
  dir_5m : Option Side
  dir_1m : Option Side
  current_price : Option ℚ
  exit_price : Option ℚ
  now : String

/-- The exit test `if dir_5m and dir_5m != side`
(src/trading_bot.py line 323): a `None` direction is falsy. -/
def exitSignal (dir_5m : Option Side) (side : Side) : Bool :=
  match dir_5m with
  | none => false
  | some d => d ≠ side

/-- The entry fusion of src/trading_bot.py lines 346 to 349: enter only
when the 1m and 5m directions agree; the 15m direction is ignored. -/
def sideToEnter (dir_1m dir_5m : Option Side) : Option Side :=
  if dir_1m = some Side.long ∧ dir_5m = some Side.long then some Side.long
  else if dir_1m = some Side.short ∧ dir_5m = some Side.short then some Side.short
  else none

/-- One iteration of the body of `TradingBot.strategy_loop`
(src/trading_bot.py lines 297 to 371).  The whole body runs inside a
`try`/`except` that swallows exceptions, so an exception raised by
`close_position` or `open_position` leaves the state as it was at the
raise point and skips the rest of the iteration — in particular the
`skip_next_signal = True` statement of line 326 is not reached when the
close raised.  `if not current_price` treats both `None` and `0.0` as
falsy. -/
def strategy_tick (s : AccountState) (inp : TickInput) : AccountState :=
  match inp.current_price with
  | none => s
  | some cp =>
    if cp = 0 then s
    else if s.in_position then
      match s.position with
      | none => s
      | some pos =>
        if exitSignal inp.dir_5m pos.side then
          match close_position s inp.exit_price "sar_reversal_5m" inp.now with
          | .raised t => t
          | .noPosition t => { t with skip_next_signal := true }
          | .closed t _ => { t with skip_next_signal := true }
        else s
    else
      if s.skip_next_signal then { s with skip_next_signal := false }
      else
        match sideToEnter inp.dir_1m inp.dir_5m with
        | none => s
        | some side =>
          let sz := get_trade_size s cp side
          if sz.1 > 0 ∧ sz.2 > 0 then
            applyOpen s side sz.1 sz.2 cp inp.now
          else s

/-- The on-disk JSON snapshot written by `save_state_to_file`
(src/trading_bot.py lines 106 to 112): every key the in-memory dictionary
has.  A field is `none` when the key is absent from the file. -/
structure Snapshot where
  balance : Option ℚ
  available : Option ℚ
  in_position : Option Bool
  position : Option (Option Position)
  trades : Option (List TradeRecord)
  telegram_trade_counter : Option ℕ
  skip_next_signal : Option Bool
deriving DecidableEq

/-- `TradingBot.save_state_to_file` (src/trading_bot.py lines 106 to 112):
`json.dump(state, f)` writes exactly the keys present in the dictionary,
so the counter key is written only when it is present. -/
def save_state_to_file (s : AccountState) : Snapshot :=
  { balance := some s.balance
    available := some s.available
    in_position := some s.in_position
    position := some s.position
    trades := some s.trades
    telegram_trade_counter := s.telegram_trade_counter
    skip_next_signal := some s.skip_next_signal }

/-- `load_state` (src/trading_bot.py lines 38 to 63), run at module import.
A missing or unreadable file leaves the module defaults.  Otherwise each
key of the default dictionary is replaced by `loaded_state.get(key,
default)`, so a key absent from the file keeps its default; in particular
a file without the counter key loads as counter `0` (the key is always
present after the loop, so the line-55 fallback is dead code). -/
def load_state (file : Option Snapshot) : AccountState :=
  match file with
  | none => defaultState
  | some snap =>
    { balance := snap.balance.getD defaultState.balance
      available := snap.available.getD defaultState.available
      in_position := snap.in_position.getD defaultState.in_position
      position := snap.position.getD defaultState.position
      trades := snap.trades.getD defaultState.trades
      telegram_trade_counter := some (snap.telegram_trade_counter.getD 0)
      skip_next_signal := snap.skip_next_signal.getD defaultState.skip_next_signal }

/-- States reachable through the engine: the module default, the ledger
operations (open, close, manual reset), whole scheduler ticks, and a
startup load of a snapshot previously saved from a reachable state. -/
inductive Reachable : AccountState → Prop where
  | init : Reachable defaultState
  | open_step {s : AccountState} (side : Side) (usdt_amount coin_amount price : ℚ)
      (now : String) :
      Reachable s → Reachable (applyOpen s side usdt_amount coin_amount price now)
  | close_step {s : AccountState} (priceOpt : Option ℚ) (close_reason now : String) :
      Reachable s → Reachable (applyClose s priceOpt close_reason now)
  | reset_step {s : AccountState} :
      Reachable s → Reachable (api_reset_balance s)
  | tick_step {s : AccountState} (inp : TickInput) :
      Reachable s → Reachable (strategy_tick s inp)
  | load_step {s : AccountState} :
      Reachable s → Reachable (load_state (some (save_state_to_file s)))

/-- One OHLC row of the dataframe consumed by `compute_psar` and
`get_direction_from_psar` (only the columns those functions read). -/
structure PriceRow where
  high : ℚ
  low : ℚ
  close : ℚ
deriving DecidableEq

/-- The external `pandas_ta` SAR indicator, abstracted by the two values
the source consumes: the last element of the `PSARl` column and the last
element of the `PSARs` column.  `none` models a `NaN` cell. -/
structure PsarLib where
  psarlLast : List PriceRow → Option ℚ
  psarsLast : List PriceRow → Option ℚ

/-- Python comparison `x > 0` where `x` may be `NaN`: any comparison with
`NaN` is false. -/
def pyGtZero : Option ℚ → Bool
  | none => false
  | some x => decide (0 < x)

/-- Python comparison `x == 0` where `x` may be `NaN`. -/
def pyEqZero : Option ℚ → Bool
  | none => false
  | some x => decide (x = 0)

/-- The last element of the series returned by `TradingBot.compute_psar`
(src/trading_bot.py lines 129 to 142): the `PSARl` column when its last
value is positive and the last `PSARs` is zero, the `PSARs` column in the
symmetric case, and otherwise `PSARl.fillna(PSARs)` whose last element is
the last `PSARl` when defined, else the last `PSARs`. -/
def compute_psar_last (psarl_last psars_last : Option ℚ) : Option ℚ :=
  if pyGtZero psarl_last && pyEqZero psars_last then psarl_last
  else if pyGtZero psars_last && pyEqZero psarl_last then psars_last
  else psarl_last.orElse (fun _ => psars_last)

/-- `df[close].iloc[-1]`: the last close of the sequence. -/
def lastClose (rows : List PriceRow) : Option ℚ :=
  (rows.map PriceRow.close).getLast?

/-- Python `last_close > last_psar` where the SAR value may be `NaN`. -/
def pyCloseAbove (last_close : ℚ) (last_psar : Option ℚ) : Bool :=
  match last_psar with
  | none => false
  | some q => decide (q < last_close)

/-- Python `last_close < last_psar` where the SAR value may be `NaN`. -/
def pyCloseBelow (last_close : ℚ) (last_psar : Option ℚ) : Bool :=
  match last_psar with
  | none => false
  | some q => decide (last_close < q)

/-- `TradingBot.get_direction_from_psar` (src/trading_bot.py lines 145 to
163): `None` dataframe or fewer than 3 rows gives `None`; otherwise the
latest close is compared with the latest SAR value. -/
def get_direction_from_psar (lib : PsarLib) (df : Option (List PriceRow)) : Option Side :=
  match df with
  | none => none
  | some rows =>
    if rows.length < 3 then none
    else
      let last_psar := compute_psar_last (lib.psarlLast rows) (lib.psarsLast rows)
      match lastClose rows with
      | none => none
      | some last_close =>
        if pyCloseAbove last_close last_psar then some Side.long
        else if pyCloseBelow last_close last_psar then some Side.short
        else none

/-! ### Helper lemmas about the ledger operations -/

lemma close_position_of_no_position (s : AccountState) (priceOpt : Option ℚ)
    (close_reason now : String) (h : s.in_position = false) :
    close_position s priceOpt close_reason now = .noPosition s := by
  simp [close_position, h]

lemma close_position_of_none_price (s : AccountState) (close_reason now : String)
    (h : s.in_position = true) :
    close_position s none close_reason now = .raised s := by
  unfold close_position
  rw [h]
  cases hp : s.position <;> simp

lemma close_position_closed_eq (s : AccountState) (pos : Position) (p : ℚ)
    (close_reason now : String) (hin : s.in_position = true)
    (hpos : s.position = some pos) :
    close_position s (some p) close_reason now =
      .closed (closedState s pos p close_reason now)
        (closeTradeRecord s pos p close_reason now) := by
  unfold close_position
  rw [hin, hpos]
  simp

lemma open_position_of_in_position (s : AccountState) (side : Side)
    (usdt_amount coin_amount price : ℚ) (now : String) (h : s.in_position = true) :
    open_position s side usdt_amount coin_amount price now = .rejected s := by
  simp [open_position, h]

lemma open_position_of_no_counter (s : AccountState) (side : Side)
    (usdt_amount coin_amount price : ℚ) (now : String) (h : s.in_position = false)
    (hc : s.telegram_trade_counter = none) :
    open_position s side usdt_amount coin_amount price now = .raised s := by
  simp [open_position, h, hc]

lemma open_position_opened_eq (s : AccountState) (side : Side)
    (usdt_amount coin_amount price : ℚ) (now : String) (n : ℕ)
    (h : s.in_position = false) (hc : s.telegram_trade_counter = some n) :
    open_position s side usdt_amount coin_amount price now =
      .opened (openedState s side usdt_amount coin_amount price n now) := by
  simp [open_position, h, hc]

lemma get_trade_size_nonpos (s : AccountState) (p : ℚ) (side : Side)
    (ha : s.available ≤ 0) : get_trade_size s p side = (0, 0) := by
  unfold get_trade_size
  simp only [max_leverage, max_trade_size, START_BANK]
  split_ifs <;> first
    | rfl
    | (exfalso; nlinarith)

lemma get_trade_size_pos_eq (s : AccountState) (p : ℚ) (side : Side)
    (ha : 0 < s.available) :
    get_trade_size s p side =
      (min (min (s.available * (1 / 100) * max_leverage) max_trade_size) s.available
        - min (min (s.available * (1 / 100) * max_leverage) max_trade_size) s.available
          * (4 / 10000),
       min (min (s.available * (1 / 100) * max_leverage) max_trade_size) s.available / p) := by
  unfold get_trade_size
  simp only [min_def, max_leverage, max_trade_size, START_BANK]
  split_ifs <;> first
    | rfl
    | (exfalso; nlinarith)

lemma committed_margin_pos (s : AccountState) (ha : 0 < s.available) :
    0 < min (min (s.available * (1 / 100) * max_leverage) max_trade_size) s.available := by
  refine lt_min (lt_min ?_ ?_) ha
  · simp only [max_leverage]
    nlinarith
  · norm_num [max_trade_size, START_BANK]

/-! ### Claim theorems -/

/-- Claim C1: closing an open position at a successfully fetched exit price
p yields net PnL of coin times (p minus entry) times leverage for a long,
coin times (entry minus p) times leverage for a short, minus an exit fee of
rate 0.0004 on coin times p; the new balance is the old balance plus this
net PnL, available equals the new balance, the position is cleared and a
trade record is appended to the history. -/
theorem claim_c1_close_pnl (s : AccountState) (pos : Position) (p : ℚ)
    (close_reason now : String) (hin : s.in_position = true)
    (hpos : s.position = some pos) :
    close_position s (some p) close_reason now =
      .closed (closedState s pos p close_reason now)
        (closeTradeRecord s pos p close_reason now) ∧
    (closedState s pos p close_reason now).balance
      = s.balance + (closePnl pos p - closeFee pos p) ∧
    (closedState s pos p close_reason now).available
      = (closedState s pos p close_reason now).balance ∧
    (closedState s pos p close_reason now).in_position = false ∧
    (closedState s pos p close_reason now).position = none ∧
    (closedState s pos p close_reason now).trades
      = s.trades ++ [closeTradeRecord s pos p close_reason now] ∧
    (pos.side = Side.long →
      closePnl pos p = pos.coin_amount * (p - pos.entry_price) * pos.leverage) ∧
    (pos.side = Side.short →
      closePnl pos p = pos.coin_amount * (pos.entry_price - p) * pos.leverage) ∧
    closeFee pos p = (4 / 10000) * (pos.coin_amount * p) := by
  refine ⟨close_position_closed_eq s pos p close_reason now hin hpos,
    rfl, rfl, rfl, rfl, rfl, ?_, ?_, ?_⟩
  · intro h
    simp [closePnl, h]
  · intro h
    simp [closePnl, h]
  · simp only [closeFee]
    ring

/-- Sample open long position: entry 2000, margin 20, one coin, leverage 5. -/
def posC1 : Position :=
  { entry_time := "e"
    side := Side.long
    entry_price := 2000
    usdt_amount := 20
    coin_amount := 1
    leverage := 5
    trade_number := 1 }

/-- Sample in-position account state holding `posC1`. -/
def stC1 : AccountState :=
  { balance := 100
    available := 80
    in_position := true
    position := some posC1
    trades := []
    telegram_trade_counter := some 1
    skip_next_signal := false }

theorem claim_c1_close_pnl_witness :
    stC1.in_position = true ∧ stC1.position = some posC1 ∧
    (closedState stC1 posC1 2100 "manual" "t").balance
      = stC1.balance + (closePnl posC1 2100 - closeFee posC1 2100) ∧
    stC1.balance + (closePnl posC1 2100 - closeFee posC1 2100) = 59916 / 100 :=
  ⟨rfl, rfl, (claim_c1_close_pnl stC1 posC1 2100 "manual" "t" rfl rfl).2.1,
   by norm_num [stC1, posC1, closePnl, closeFee]⟩

/-- Claim C9: a close on an open position whose exit-price fetch fails
raises before any mutation: the outcome carries the untouched state, and
the caught exception leaves every field of the account state unchanged. -/
theorem claim_c9_close_atomic (s : AccountState) (close_reason now : String)
    (h : s.in_position = true) :
    close_position s none close_reason now = .raised s ∧
    applyClose s none close_reason now = s := by
  have hc := close_position_of_none_price s close_reason now h
  refine ⟨hc, ?_⟩
  unfold applyClose
  rw [hc]

theorem claim_c9_close_atomic_witness :
    stC1.in_position = true ∧ applyClose stC1 none "manual" "t" = stC1 :=
  ⟨rfl, (claim_c9_close_atomic stC1 "manual" "t" rfl).2⟩

/-- Claim C6: opening while already in a position and closing with no open
position are no-ops: no exception, a rejection value respectively a `None`
return, and an unchanged account state. -/
theorem claim_c6_noop (s : AccountState) (side : Side)
    (usdt_amount coin_amount price : ℚ) (priceOpt : Option ℚ)
    (close_reason now t : String) :
    (s.in_position = true →
      open_position s side usdt_amount coin_amount price t = .rejected s ∧
      applyOpen s side usdt_amount coin_amount price t = s) ∧
    (s.in_position = false →
      close_position s priceOpt close_reason now = .noPosition s ∧
      applyClose s priceOpt close_reason now = s) := by
  constructor
  · intro h
    have ho := open_position_of_in_position s side usdt_amount coin_amount price t h
    refine ⟨ho, ?_⟩
    unfold applyOpen
    rw [ho]
  · intro h
    have hc := close_position_of_no_position s priceOpt close_reason now h
    refine ⟨hc, ?_⟩
    unfold applyClose
    rw [hc]

theorem claim_c6_noop_witness :
    stC1.in_position = true ∧
    applyOpen stC1 Side.long 1 1 100 "t" = stC1 ∧
    defaultState.in_position = false ∧
    applyClose defaultState (some 100) "manual" "t" = defaultState :=
  ⟨rfl,
   ((claim_c6_noop stC1 Side.long 1 1 100 (some 100) "manual" "t" "t").1 rfl).2,
   rfl,
   ((claim_c6_noop defaultState Side.long 1 1 100 (some 100) "manual" "t" "t").2 rfl).2⟩

/-- Claim C4 counterexample: the manual balance reset does not clear the
hysteresis flag; on a state with the flag set, the flag is still set after
the reset, contradicting the claim that the reset clears it. -/
theorem claim_c4_counterexample :
    (api_reset_balance { defaultState with skip_next_signal := true }).skip_next_signal
      = true := rfl

/-- Claim C4 (amended): the manual balance reset sets balance and available
to 100.0, clears the position and the in-position flag and empties the
trade history, but leaves the hysteresis flag unchanged. -/
theorem claim_c4_amended (s : AccountState) :
    (api_reset_balance s).balance = 100 ∧
    (api_reset_balance s).available = 100 ∧
    (api_reset_balance s).position = none ∧
    (api_reset_balance s).in_position = false ∧
    (api_reset_balance s).trades = [] ∧
    (api_reset_balance s).skip_next_signal = s.skip_next_signal :=
  ⟨rfl, rfl, rfl, rfl, rfl, rfl⟩

/-- Case analysis of one scheduler tick: it either leaves the state alone,
only clears the hysteresis flag, performs a trend-reversal close followed
by setting the hysteresis flag, or opens a position with a positive
computed size. -/
lemma strategy_tick_shapes (s : AccountState) (inp : TickInput) :
    strategy_tick s inp = s ∨
    strategy_tick s inp = { s with skip_next_signal := false } ∨
    (∃ pos q, s.in_position = true ∧ s.position = some pos ∧ inp.exit_price = some q ∧
      strategy_tick s inp
        = { closedState s pos q "sar_reversal_5m" inp.now with skip_next_signal := true }) ∨
    (∃ (enter_side : Side) (n : ℕ) (cp : ℚ), s.in_position = false ∧
      s.telegram_trade_counter = some n ∧ inp.current_price = some cp ∧
      (get_trade_size s cp enter_side).1 > 0 ∧ (get_trade_size s cp enter_side).2 > 0 ∧
      strategy_tick s inp
        = openedState s enter_side (get_trade_size s cp enter_side).1
            (get_trade_size s cp enter_side).2 cp n inp.now) := by
  unfold strategy_tick
  cases hcp : inp.current_price with
  | none => exact Or.inl rfl
  | some cp =>
    dsimp only
    by_cases hz : cp = 0
    · rw [if_pos hz]
      exact Or.inl rfl
    · rw [if_neg hz]
      by_cases hin : s.in_position = true
      · rw [if_pos hin]
        cases hpos : s.position with
        | none => exact Or.inl rfl
        | some pos =>
          dsimp only
          by_cases hex : exitSignal inp.dir_5m pos.side = true
          · rw [if_pos hex]
            cases hq : inp.exit_price with
            | none =>
              rw [close_position_of_none_price s _ _ hin]
              exact Or.inl rfl
            | some q =>
              rw [close_position_closed_eq s pos q _ _ hin hpos]
              exact Or.inr (Or.inr (Or.inl ⟨pos, q, hin, rfl, rfl, rfl⟩))
          · rw [if_neg hex]
            exact Or.inl rfl
      · have hin1 : s.in_position = false := by simpa using hin
        rw [if_neg hin]
        by_cases hskip : s.skip_next_signal = true
        · rw [if_pos hskip]
          exact Or.inr (Or.inl rfl)
        · rw [if_neg hskip]
          cases hse : sideToEnter inp.dir_1m inp.dir_5m with
          | none => exact Or.inl rfl
          | some enter_side =>
            dsimp only
            by_cases hg : (get_trade_size s cp enter_side).1 > 0 ∧
                (get_trade_size s cp enter_side).2 > 0
            · rw [if_pos hg]
              unfold applyOpen
              cases hc : s.telegram_trade_counter with
              | none =>
                rw [open_position_of_no_counter s enter_side _ _ _ _ hin1 hc]
                exact Or.inl rfl
              | some n =>
                rw [open_position_opened_eq s enter_side _ _ _ _ n hin1 hc]
                exact Or.inr (Or.inr (Or.inr
                  ⟨enter_side, n, cp, hin1, rfl, rfl, hg.1, hg.2, rfl⟩))
            · rw [if_neg hg]
              exact Or.inl rfl

/-- Claim C3: the committed margin is available times 0.01 times leverage,
capped first at the maximum trade size and then at the available balance,
with the 0.0004 entry fee deducted from the committed margin; the pre-cap
amount is nonpositive exactly when the available balance is, in which case
the computed size is the pair (0, 0) and a tick opens no position. -/
theorem claim_c3_trade_size (s : AccountState) (p : ℚ) (side : Side) (hp : 0 < p) :
    (s.available * (1 / 100) * max_leverage ≤ 0 ↔ s.available ≤ 0) ∧
    (s.available ≤ 0 → get_trade_size s p side = (0, 0)) ∧
    (0 < s.available →
      get_trade_size s p side =
        (min (min (s.available * (1 / 100) * max_leverage) max_trade_size) s.available
          - min (min (s.available * (1 / 100) * max_leverage) max_trade_size) s.available
            * (4 / 10000),
         min (min (s.available * (1 / 100) * max_leverage) max_trade_size) s.available / p)) ∧
    (s.available ≤ 0 → s.in_position = false → ∀ inp : TickInput,
      (strategy_tick s inp).position = s.position ∧
      (strategy_tick s inp).in_position = false) := by
  refine ⟨?_, fun ha => get_trade_size_nonpos s p side ha,
    fun ha => get_trade_size_pos_eq s p side ha, ?_⟩
  · simp only [max_leverage]
    constructor <;> intro h <;> nlinarith
  · intro ha hin inp
    rcases strategy_tick_shapes s inp with h | h | ⟨pos, q, hin1, _⟩ |
        ⟨es, n, cp, _, _, _, hg, _, _⟩
    · rw [h]
      exact ⟨rfl, hin⟩
    · rw [h]
      exact ⟨rfl, hin⟩
    · rw [hin] at hin1
      exact absurd hin1 Bool.false_ne_true
    · rw [get_trade_size_nonpos s cp es ha] at hg
      exact absurd hg (lt_irrefl 0)

theorem claim_c3_trade_size_witness :
    (0 : ℚ) < 2000 ∧ (0 : ℚ) < defaultState.available ∧
    get_trade_size defaultState 2000 Side.long =
      (min (min (defaultState.available * (1 / 100) * max_leverage) max_trade_size)
          defaultState.available
        - min (min (defaultState.available * (1 / 100) * max_leverage) max_trade_size)
            defaultState.available * (4 / 10000),
       min (min (defaultState.available * (1 / 100) * max_leverage) max_trade_size)
          defaultState.available / 2000) ∧
    get_trade_size defaultState 2000 Side.long = (2499 / 500, 1 / 400) := by
  refine ⟨by norm_num, by norm_num [defaultState, START_BANK], ?_, ?_⟩
  · exact (claim_c3_trade_size defaultState 2000 Side.long (by norm_num)).2.2.1
      (by norm_num [defaultState, START_BANK])
  · norm_num [get_trade_size, defaultState, START_BANK, max_leverage, max_trade_size]

/-- Claim C10: the manual balance reset removes the trade-counter key
entirely; any later open attempt in the same process raises a key error
carrying the untouched state, scheduler ticks keep the key absent and the
position empty, so no position is ever created from a post-reset state. -/
theorem claim_c10_reset_removes_counter (s : AccountState) :
    (api_reset_balance s).telegram_trade_counter = none ∧
    (api_reset_balance s).in_position = false ∧
    (api_reset_balance s).position = none ∧
    (∀ s1 : AccountState, s1.telegram_trade_counter = none → s1.in_position = false →
      s1.position = none → ∀ inp : TickInput,
        (strategy_tick s1 inp).telegram_trade_counter = none ∧
        (strategy_tick s1 inp).in_position = false ∧
        (strategy_tick s1 inp).position = none) ∧
    (∀ s1 : AccountState, s1.telegram_trade_counter = none → s1.in_position = false →
      ∀ (side : Side) (usdt_amount coin_amount price : ℚ) (t : String),
        open_position s1 side usdt_amount coin_amount price t = .raised s1) := by
  refine ⟨rfl, rfl, rfl, ?_, ?_⟩
  · intro s1 hc hin hpos inp
    rcases strategy_tick_shapes s1 inp with h | h | ⟨pos, q, hin1, _, _, _⟩ |
        ⟨es, n, cp, _, hc1, _, _, _, _⟩
    · rw [h]
      exact ⟨hc, hin, hpos⟩
    · rw [h]
      exact ⟨hc, hin, hpos⟩
    · rw [hin] at hin1
      exact absurd hin1 Bool.false_ne_true
    · rw [hc] at hc1
      exact Option.noConfusion hc1
  · intro s1 hc hin side usdt_amount coin_amount price t
    exact open_position_of_no_counter s1 side usdt_amount coin_amount price t hin hc

theorem claim_c10_reset_removes_counter_witness :
    (api_reset_balance defaultState).telegram_trade_counter = none ∧
    open_position (api_reset_balance defaultState) Side.long 1 1 100 "t"
      = .raised (api_reset_balance defaultState) ∧
    (strategy_tick (api_reset_balance defaultState)
        ⟨some Side.long, some Side.long, some Side.long, some 100, some 100, "t"⟩).position
      = none := by
  refine ⟨(claim_c10_reset_removes_counter defaultState).1, ?_, ?_⟩
  · exact (claim_c10_reset_removes_counter defaultState).2.2.2.2
      (api_reset_balance defaultState) rfl rfl Side.long 1 1 100 "t"
  · exact ((claim_c10_reset_removes_counter defaultState).2.2.2.1
      (api_reset_balance defaultState) rfl rfl rfl _).2.2

lemma close_position_of_none_position (s : AccountState) (priceOpt : Option ℚ)
    (close_reason now : String) (hin : s.in_position = true) (hpos : s.position = none) :
    close_position s priceOpt close_reason now = .raised s := by
  unfold close_position
  rw [hin, hpos]
  simp

lemma inv_applyOpen (s : AccountState) (side : Side) (usdt_amount coin_amount price : ℚ)
    (now : String) (ih : s.in_position = true ↔ s.position ≠ none) :
    ((applyOpen s side usdt_amount coin_amount price now).in_position = true ↔
      (applyOpen s side usdt_amount coin_amount price now).position ≠ none) := by
  unfold applyOpen
  by_cases hin : s.in_position = true
  · rw [open_position_of_in_position s side _ _ _ _ hin]
    exact ih
  · have hin1 : s.in_position = false := by simpa using hin
    cases hc : s.telegram_trade_counter with
    | none =>
      rw [open_position_of_no_counter s side _ _ _ _ hin1 hc]
      exact ih
    | some n =>
      rw [open_position_opened_eq s side _ _ _ _ n hin1 hc]
      simp [openedState]

lemma inv_applyClose (s : AccountState) (priceOpt : Option ℚ) (close_reason now : String)
    (ih : s.in_position = true ↔ s.position ≠ none) :
    ((applyClose s priceOpt close_reason now).in_position = true ↔
      (applyClose s priceOpt close_reason now).position ≠ none) := by
  unfold applyClose
  by_cases hin : s.in_position = true
  · cases hpos : s.position with
    | none =>
      rw [close_position_of_none_position s priceOpt _ _ hin hpos]
      exact ih
    | some pos =>
      cases priceOpt with
      | none =>
        rw [close_position_of_none_price s _ _ hin]
        exact ih
      | some p =>
        rw [close_position_closed_eq s pos p _ _ hin hpos]
        simp [closedState]
  · have hin1 : s.in_position = false := by simpa using hin
    rw [close_position_of_no_position s priceOpt _ _ hin1]
    exact ih

lemma inv_strategy_tick (s : AccountState) (inp : TickInput)
    (ih : s.in_position = true ↔ s.position ≠ none) :
    ((strategy_tick s inp).in_position = true ↔ (strategy_tick s inp).position ≠ none) := by
  rcases strategy_tick_shapes s inp with h | h | ⟨pos, q, _, _, _, h⟩ |
      ⟨es, n, cp, _, _, _, _, _, h⟩
  · rw [h]
    exact ih
  · rw [h]
    exact ih
  · rw [h]
    simp [closedState]
  · rw [h]
    simp [openedState]

/-- Claim C7: in every state reachable through the engine operations, the
in-position flag is true exactly when the current position is non-empty. -/
theorem claim_c7_position_invariant (s : AccountState) (h : Reachable s) :
    s.in_position = true ↔ s.position ≠ none := by
  induction h with
  | init => simp [defaultState]
  | open_step side usdt_amount coin_amount price now _ ih =>
    exact inv_applyOpen _ side usdt_amount coin_amount price now ih
  | close_step priceOpt close_reason now _ ih =>
    exact inv_applyClose _ priceOpt close_reason now ih
  | reset_step _ ih => simp [api_reset_balance]
  | tick_step inp _ ih => exact inv_strategy_tick _ inp ih
  | load_step _ ih => exact ih

theorem claim_c7_position_invariant_witness :
    defaultState.in_position = true ↔ defaultState.position ≠ none :=
  claim_c7_position_invariant defaultState Reachable.init

/-- Claim C8 counterexample: the post-reset state is reachable, its trade
counter key is absent, and a save followed by a load does not reproduce it:
the loaded state has counter 0 instead of an absent key. -/
theorem claim_c8_counterexample :
    Reachable (api_reset_balance defaultState) ∧
    load_state (some (save_state_to_file (api_reset_balance defaultState)))
      ≠ api_reset_balance defaultState := by
  refine ⟨Reachable.reset_step Reachable.init, ?_⟩
  intro h
  have h2 := congrArg AccountState.telegram_trade_counter h
  simp [load_state, save_state_to_file, api_reset_balance] at h2

/-- Claim C8 (amended): for every reachable state whose trade-counter key
is present, saving the state to the snapshot and loading it back
reproduces the state field for field; a state whose counter key was
removed by the reset loads back with counter 0 instead. -/
theorem claim_c8_roundtrip (s : AccountState) (h : Reachable s) (n : ℕ)
    (hc : s.telegram_trade_counter = some n) :
    load_state (some (save_state_to_file s)) = s := by
  obtain ⟨b, a, ip, pos, tr, ctr, sk⟩ := s
  have hc2 : ctr = some n := hc
  subst hc2
  rfl

theorem claim_c8_roundtrip_witness :
    defaultState.telegram_trade_counter = some 0 ∧
    load_state (some (save_state_to_file defaultState)) = defaultState :=
  ⟨rfl, claim_c8_roundtrip defaultState Reachable.init 0 rfl⟩

/-- Claim C5: the per-timeframe direction is `unknown` for a missing input
or fewer than 3 candles (never raising), and otherwise is `long` when the
latest close is strictly above the latest SAR value, `short` when strictly
below, and `unknown` when exactly equal — for any behaviour of the
external SAR library. -/
theorem claim_c5_direction (lib : PsarLib) :
    get_direction_from_psar lib none = none ∧
    (∀ rows : List PriceRow, rows.length < 3 →
      get_direction_from_psar lib (some rows) = none) ∧
    (∀ (rows : List PriceRow) (c v : ℚ), 3 ≤ rows.length → lastClose rows = some c →
      compute_psar_last (lib.psarlLast rows) (lib.psarsLast rows) = some v →
      ((v < c → get_direction_from_psar lib (some rows) = some Side.long) ∧
       (c < v → get_direction_from_psar lib (some rows) = some Side.short) ∧
       (c = v → get_direction_from_psar lib (some rows) = none))) := by
  refine ⟨rfl, ?_, ?_⟩
  · intro rows h
    unfold get_direction_from_psar
    dsimp only
    rw [if_pos h]
  · intro rows c v h3 hlc hps
    have hnl : ¬ rows.length < 3 := not_lt.mpr h3
    unfold get_direction_from_psar
    dsimp only
    rw [if_neg hnl, hlc, hps]
    dsimp only
    refine ⟨?_, ?_, ?_⟩ <;> intro hcv
    · simp [pyCloseAbove, hcv]
    · simp [pyCloseAbove, pyCloseBelow, hcv, lt_asymm hcv]
    · simp [pyCloseAbove, pyCloseBelow, hcv, lt_irrefl]

/-- A sample SAR library whose long column ends at 1 and short column at
a `NaN` cell. -/
def libC5 : PsarLib :=
  { psarlLast := fun _ => some 1
    psarsLast := fun _ => none }

/-- Three identical candles closing at 2. -/
def rowsC5 : List PriceRow :=
  [{ high := 3, low := 1, close := 2 }, { high := 3, low := 1, close := 2 },
   { high := 3, low := 1, close := 2 }]

theorem claim_c5_direction_witness :
    (3 : ℕ) ≤ rowsC5.length ∧ lastClose rowsC5 = some 2 ∧
    compute_psar_last (libC5.psarlLast rowsC5) (libC5.psarsLast rowsC5) = some 1 ∧
    get_direction_from_psar libC5 (some rowsC5) = some Side.long := by
  refine ⟨by norm_num [rowsC5], rfl, ?_, ?_⟩
  · norm_num [compute_psar_last, pyGtZero, pyEqZero, libC5]
  · exact ((claim_c5_direction libC5).2.2 rowsC5 2 1 (by norm_num [rowsC5]) rfl
      (by norm_num [compute_psar_last, pyGtZero, pyEqZero, libC5])).1 (by norm_num)

/-- Claim C2 counterexample: a manual close through the control surface
closes the position but leaves `skip_next_signal` false, contradicting the
claim that the flag is true immediately after every close. -/
theorem claim_c2_counterexample :
    stC1.in_position = true ∧
    (api_close_position stC1 (some 2100) "t").in_position = false ∧
    (api_close_position stC1 (some 2100) "t").skip_next_signal = false :=
  ⟨rfl, rfl, rfl⟩

/-- Claim C2 (amended): a scheduler trend-reversal close sets
`skip_next_signal` and clears the position; with the flag set the next
tick only clears the flag again, suppressing entry exactly once even when
entry conditions hold, and with the flag clear an aligned signal opens a
position; a manual close through the control surface leaves the flag
unchanged. -/
theorem claim_c2_amended (s : AccountState) (pos : Position) (inp : TickInput)
    (cp q : ℚ) (n : ℕ) (enter_side : Side) (priceOpt : Option ℚ) (now : String) :
    (s.in_position = true → s.position = some pos → inp.current_price = some cp →
      cp ≠ 0 → exitSignal inp.dir_5m pos.side = true → inp.exit_price = some q →
      (strategy_tick s inp).skip_next_signal = true ∧
      (strategy_tick s inp).in_position = false ∧
      (strategy_tick s inp).position = none) ∧
    (s.in_position = false → s.skip_next_signal = true → inp.current_price = some cp →
      cp ≠ 0 → strategy_tick s inp = { s with skip_next_signal := false }) ∧
    ((api_close_position s priceOpt now).skip_next_signal = s.skip_next_signal) ∧
    (s.in_position = false → s.skip_next_signal = false → inp.current_price = some cp →
      0 < cp → sideToEnter inp.dir_1m inp.dir_5m = some enter_side →
      0 < s.available → s.telegram_trade_counter = some n →
      (strategy_tick s inp).in_position = true ∧
      (strategy_tick s inp).position ≠ none) := by
  refine ⟨?_, ?_, ?_, ?_⟩
  · intro hin hpos hcp hz hex hq
    unfold strategy_tick
    rw [hcp]
    dsimp only
    rw [if_neg hz, if_pos hin, hpos]
    dsimp only
    rw [if_pos hex, hq, close_position_closed_eq s pos q _ _ hin hpos]
    exact ⟨rfl, rfl, rfl⟩
  · intro hin hskip hcp hz
    unfold strategy_tick
    rw [hcp]
    dsimp only
    rw [if_neg hz, if_neg (by simp [hin]), if_pos hskip]
  · unfold api_close_position
    by_cases hin : s.in_position = false
    · rw [if_pos hin]
    · have hin1 : s.in_position = true := by simpa using hin
      rw [if_neg hin]
      unfold applyClose
      cases hpos : s.position with
      | none => rw [close_position_of_none_position s priceOpt _ _ hin1 hpos]
      | some pos =>
        cases priceOpt with
        | none => rw [close_position_of_none_price s _ _ hin1]
        | some p =>
          rw [close_position_closed_eq s pos p _ _ hin1 hpos]
          rfl
  · intro hin hskip hcp hcp0 hse ha hc
    have hz : ¬ cp = 0 := ne_of_gt hcp0
    unfold strategy_tick
    rw [hcp]
    dsimp only
    rw [if_neg hz, if_neg (by simp [hin]), if_neg (by simp [hskip]), hse]
    dsimp only
    have hgts := get_trade_size_pos_eq s cp enter_side ha
    have hC := committed_margin_pos s ha
    have h1 : (get_trade_size s cp enter_side).1 > 0 := by
      rw [hgts]
      dsimp only
      linarith
    have h2 : (get_trade_size s cp enter_side).2 > 0 := by
      rw [hgts]
      exact div_pos hC hcp0
    rw [if_pos ⟨h1, h2⟩]
    unfold applyOpen
    rw [open_position_opened_eq s enter_side _ _ _ _ n hin hc]
    exact ⟨rfl, by simp [openedState]⟩

/-- Tick input carrying a 5m trend reversal against `posC1`. -/
def inpExitC2 : TickInput :=
  { dir_15m := none
    dir_5m := some Side.short
    dir_1m := none
    current_price := some 2100
    exit_price := some 2100
    now := "t" }

/-- Tick input whose 1m and 5m directions agree on long. -/
def inpEnterC2 : TickInput :=
  { dir_15m := none
    dir_5m := some Side.long
    dir_1m := some Side.long
    current_price := some 2000
    exit_price := none
    now := "t" }

/-- The default state with the hysteresis flag set. -/
def stSkipC2 : AccountState := { defaultState with skip_next_signal := true }

theorem claim_c2_amended_witness :
    (strategy_tick stC1 inpExitC2).skip_next_signal = true ∧
    strategy_tick stSkipC2 inpEnterC2 = { stSkipC2 with skip_next_signal := false } ∧
    (api_close_position stC1 (some 2100) "t").skip_next_signal = stC1.skip_next_signal ∧
    (strategy_tick defaultState inpEnterC2).in_position = true := by
  refine ⟨?_, ?_, ?_, ?_⟩
  · exact ((claim_c2_amended stC1 posC1 inpExitC2 2100 2100 0 Side.long none "t").1
      rfl rfl rfl (by norm_num) rfl rfl).1
  · exact (claim_c2_amended stSkipC2 posC1 inpEnterC2 2000 0 0 Side.long none "t").2.1
      rfl rfl rfl (by norm_num)
  · exact (claim_c2_amended stC1 posC1 inpExitC2 2100 2100 0 Side.long (some 2100) "t").2.2.1
  · exact ((claim_c2_amended defaultState posC1 inpEnterC2 2000 0 0 Side.long none "t").2.2.2
      rfl rfl rfl (by norm_num) rfl (by norm_num [defaultState, START_BANK]) rfl).1
